import Mathlib

/-!
Shallow embedding of the ThriveDesk-to-aXcelerate webhook glue
(netlify functions "add-contact-note" and their historical variants),
together with theorems settling the specification claims.

Modelling conventions, used consistently below:
  - JavaScript runtime values are modelled by the inductive `JsVal`
    (undefined, null, booleans, numbers as `Int`, strings, arrays, objects).
  - JavaScript exceptions (TypeError on property access of null/undefined,
    the ReferenceError of an undeclared variable read) are modelled with
    `Except JsErr`.  Expressions that cannot throw are embedded as total
    functions.
  - Node builtins that the repository only calls (crypto.createHmac-sha1-base64,
    JSON.parse, JSON.stringify, encodeURIComponent, fetch, URLSearchParams,
    Number) are not reimplemented: they enter as explicit function parameters
    or as oracle arguments holding the remote directory's responses, so every
    theorem is parametric in them.
  - String.prototype.toLowerCase and the regex classes \s are modelled on the
    ASCII range, which covers every string the repository manipulates.
-/

namespace VnsAxc

/-- JS regex \s on the ASCII range (space, tab, LF, CR, VT, FF). -/
def isJsSpace (c : Char) : Bool :=
  c = ' ' || c = '\t' || c = '\n' || c = '\r' || c = '\x0b' || c = '\x0c'

/-- ASCII lower-casing of one character (String.prototype.toLowerCase). -/
def lowChar (c : Char) : Char :=
  if 'A' ≤ c && c ≤ 'Z' then Char.ofNat (c.toNat + 32) else c

/-- String.prototype.toLowerCase, ASCII model. -/
def lowerStr (s : String) : String := String.mk (s.data.map lowChar)

/-- String.prototype.trim, ASCII-whitespace model. -/
def trimStr (s : String) : String :=
  String.mk (((s.data.dropWhile isJsSpace).reverse.dropWhile isJsSpace).reverse)

/-- Whether `p` begins the list `l` (exact characters). -/
def hasPre : List Char → List Char → Bool
  | [], _ => true
  | _ :: _, [] => false
  | a :: ps, b :: ls => a = b && hasPre ps ls

/-- Index of the first occurrence of `pat` in `l` (String.prototype.indexOf). -/
def idxOfSub (pat : List Char) : List Char → Option Nat
  | [] => if pat.isEmpty then some 0 else none
  | c :: rest =>
    if hasPre pat (c :: rest) then some 0
    else (idxOfSub pat rest).map (· + 1)

/-- String.prototype.includes: `sub` occurs somewhere inside `s`. -/
def containsSubStr (s sub : String) : Bool := (idxOfSub sub.data s.data).isSome

/-- JS `a || b` for an optional string `a` against default `b`
(undefined and the empty string are falsy). -/
def jsOrS (a : Option String) (b : String) : String :=
  match a with
  | some s => if s = "" then b else s
  | none => b

/-- State of the brace/bracket scanner of extractRawDataSubstring:
current nesting depth, whether we are inside a string literal, which quote
opened it, and whether the previous in-string character was a backslash. -/
structure ScanSt where
  depth : Int
  inStr : Bool
  q : Char
  esc : Bool
deriving DecidableEq, Repr

/-- One character step of the scanner (the loop body of
extractRawDataSubstring, src/unnamed/part_001 lines 41-68). -/
def scanStep (st : ScanSt) (ch : Char) : ScanSt :=
  if st.inStr then
    if st.esc then { st with esc := false }
    else if ch = '\\' then { st with esc := true }
    else if ch = st.q then { st with inStr := false }
    else st
  else if ch = '"' || ch = '\'' then { st with inStr := true, q := ch }
  else if ch = '{' || ch = '[' then { st with depth := st.depth + 1 }
  else if ch = '}' || ch = ']' then { st with depth := st.depth - 1 }
  else st

/-- The scanner loop: returns the number of characters consumed up to and
including the one that brings the depth back to 0.  Characters consumed while
inside a string literal, and the quote characters that open one, skip the
depth-zero test exactly as the `continue` statements do in the source. -/
def scanLoop (st : ScanSt) : List Char → Nat → Option Nat
  | [], _ => none
  | ch :: rest, n =>
    if st.inStr then scanLoop (scanStep st ch) rest (n + 1)
    else if ch = '"' || ch = '\'' then scanLoop (scanStep st ch) rest (n + 1)
    else
      let st2 := scanStep st ch
      if st2.depth = 0 then some (n + 1) else scanLoop st2 rest (n + 1)

/-- The value part of extractRawDataSubstring: given the text from the first
non-whitespace character after the colon, require `[` or `{`, then scan to
the matching depth-zero close and return that slice (including the close). -/
def extractValue (v : List Char) : Option (List Char) :=
  match v with
  | c :: _ =>
    if c = '{' || c = '[' then
      match scanLoop ⟨0, false, ' ', false⟩ v 0 with
      | some n => some (v.take n)
      | none => none
    else none
  | [] => none

/-- extractRawDataSubstring (src/unnamed/part_001 lines 19-71, identical in
part_002 lines 18-46), over a character list: find the first occurrence of
the six characters `"data"`, skip forward over non-space non-colon characters
then over whitespace, require a colon, skip whitespace, then extract the
bracketed value. -/
def extractRawDataSubstringL (body : List Char) : Option (List Char) :=
  match idxOfSub ("\"data\"".data) body with
  | none => none
  | some keyIdx =>
    match (((body.drop (keyIdx + 6)).dropWhile
        (fun c => !(isJsSpace c || c = ':'))).dropWhile isJsSpace) with
    | ':' :: r4 => extractValue (r4.dropWhile isJsSpace)
    | _ => none

/-- extractRawDataSubstring on strings. -/
def extractRawDataSubstring (s : String) : Option String :=
  (extractRawDataSubstringL s.data).map String.mk

/-- The scanner always consumes at least one character. -/
theorem scanLoop_gt (st : ScanSt) (l : List Char) (n m : Nat)
    (h : scanLoop st l n = some m) : n < m := by
  induction l generalizing st n with
  | nil => simp [scanLoop] at h
  | cons c rest ih =>
    simp only [scanLoop] at h
    split at h
    · exact Nat.lt_of_succ_le (Nat.le_of_lt (ih _ _ h))
    · split at h
      · exact Nat.lt_of_succ_le (Nat.le_of_lt (ih _ _ h))
      · split at h
        · cases h; exact Nat.lt_succ_self n
        · exact Nat.lt_of_succ_le (Nat.le_of_lt (ih _ _ h))

/-- A successful value extraction is never empty. -/
theorem extractValue_ne_nil (v l : List Char) (h : extractValue v = some l) :
    l ≠ [] := by
  unfold extractValue at h
  split at h
  · rename_i c crest
    split at h
    · split at h
      · rename_i n hscan
        have h1 : 0 < n := scanLoop_gt _ _ _ _ hscan
        have h2 := Option.some.inj h
        intro hnil
        have : (List.take n (c :: crest)).length = 0 := by rw [h2, hnil]; rfl
        rw [List.length_take] at this
        rcases Nat.min_eq_zero_iff.mp this with h0 | h0
        · omega
        · exact absurd h0 (by simp)
      · exact absurd h (by simp)
    · exact absurd h (by simp)
  · exact absurd h (by simp)

/-- A successful raw-data extraction is never the empty string. -/
theorem extractRawDataSubstring_ne_empty (s t : String)
    (h : extractRawDataSubstring s = some t) : t ≠ "" := by
  unfold extractRawDataSubstring at h
  cases he : extractRawDataSubstringL s.data with
  | none => simp [he] at h
  | some l =>
    simp only [he, Option.map_some', Option.some.injEq] at h
    subst h
    intro hcon
    have hl : l = [] := by
      have := congrArg String.data hcon
      simpa using this
    subst hl
    unfold extractRawDataSubstringL at he
    split at he
    · exact absurd he (by simp)
    · split at he
      · exact absurd (extractValue_ne_nil _ _ he) (by simp)
      · exact absurd he (by simp)

/-- JavaScript runtime values (JSON values plus undefined; numbers as Int). -/
inductive JsVal where
  | undefined : JsVal
  | null : JsVal
  | bool : Bool → JsVal
  | num : Int → JsVal
  | str : String → JsVal
  | arr : List JsVal → JsVal
  | obj : List (String × JsVal) → JsVal

/-- A thrown JS exception, carrying its message. -/
structure JsErr where
  message : String
deriving DecidableEq, Repr

/-- JS truthiness. -/
def truthy : JsVal → Bool
  | .undefined => false
  | .null => false
  | .bool b => b
  | .num n => n != 0
  | .str s => s != ""
  | .arr _ => true
  | .obj _ => true

/-- First binding of a key in an object's field list. -/
def lookupField : List (String × JsVal) → String → Option JsVal
  | [], _ => none
  | (k, v) :: rest, key => if k = key then some v else lookupField rest key

/-- Property read on a value already known not to be nullish: objects give
the field or undefined, primitives box and give undefined. -/
def getOwn : JsVal → String → JsVal
  | .obj fs, k => (lookupField fs k).getD .undefined
  | _, _ => .undefined

/-- Optional chaining `base?.k`: total, nullish bases give undefined. -/
def chainGet (v : JsVal) (k : String) : JsVal :=
  match v with
  | .undefined => .undefined
  | .null => .undefined
  | w => getOwn w k

/-- Plain property read `base.k`: throws TypeError on a nullish base. -/
def rawGet (v : JsVal) (k : String) : Except JsErr JsVal :=
  match v with
  | .undefined => .error ⟨"TypeError"⟩
  | .null => .error ⟨"TypeError"⟩
  | w => .ok (getOwn w k)

/-- JS `a || b`. -/
def jsOr (a b : JsVal) : JsVal := if truthy a then a else b

/-- JS `a ?? b`. -/
def jsNullish (a b : JsVal) : JsVal :=
  match a with
  | .undefined => b
  | .null => b
  | w => w

/-- JS Array.isArray. -/
def isArrayB : JsVal → Bool
  | .arr _ => true
  | _ => false

/-- The element list of an array value (empty for non-arrays). -/
def arrElems : JsVal → List JsVal
  | .arr xs => xs
  | _ => []

/-- Indexing `a[0]` on a non-nullish value (undefined when out of range or
not an array). -/
def idx0 : JsVal → JsVal
  | .arr (x :: _) => x
  | _ => .undefined

mutual
/-- JS String(v) (template-literal interpolation uses the same conversion). -/
def jsToString : JsVal → String
  | .undefined => "undefined"
  | .null => "null"
  | .bool b => if b then "true" else "false"
  | .num n => toString n
  | .str s => s
  | .arr xs => String.intercalate "," (jsToStringElems xs)
  | .obj _ => "[object Object]"

/-- Array elements under String(): null and undefined become empty. -/
def jsToStringElems : List JsVal → List String
  | [] => []
  | .undefined :: xs => "" :: jsToStringElems xs
  | .null :: xs => "" :: jsToStringElems xs
  | x :: xs => jsToString x :: jsToStringElems xs
end

/-- JS `arr.join(sep)` (elements stringified, nullish elements empty). -/
def jsJoin (sep : String) (xs : List JsVal) : String :=
  String.intercalate sep (jsToStringElems xs)

/-- rawGet succeeds on every truthy base. -/
theorem rawGet_ok_of_truthy (v : JsVal) (k : String) (h : truthy v = true) :
    rawGet v k = .ok (getOwn v k) := by
  cases v <;> simp_all [truthy, rawGet]

/-- When `base?.k` is an array, `base.k` reads the same value without throwing. -/
theorem rawGet_of_chain_array (v : JsVal) (k : String)
    (h : isArrayB (chainGet v k) = true) : rawGet v k = .ok (chainGet v k) := by
  cases v <;> simp_all [chainGet, rawGet, isArrayB]

/-- Case-insensitive prefix test: `pat` (given lower-case) begins `l`. -/
def hasPreCI : List Char → List Char → Bool
  | [], _ => true
  | _ :: _, [] => false
  | a :: ps, b :: ls => lowChar b = a && hasPreCI ps ls

/-- Drop up to and including the first case-insensitive occurrence of `pat`;
none when `pat` does not occur. -/
def dropToAfterCI (pat : List Char) : List Char → Option (List Char)
  | [] => none
  | c :: rest =>
    if hasPreCI pat (c :: rest) then some ((c :: rest).drop pat.length)
    else dropToAfterCI pat rest

/-- The regex pass removing lazy `<style>...</style>` and
`<script>...</script>` blocks, case-insensitively (htmlToText first replace). -/
def stripBlocks : Nat → List Char → List Char
  | 0, l => l
  | _ + 1, [] => []
  | fuel + 1, c :: rest =>
    if hasPreCI "<style".data (c :: rest) then
      match dropToAfterCI "</style>".data ((c :: rest).drop 6) with
      | some suffix => stripBlocks fuel suffix
      | none => c :: stripBlocks fuel rest
    else if hasPreCI "<script".data (c :: rest) then
      match dropToAfterCI "</script>".data ((c :: rest).drop 7) with
      | some suffix => stripBlocks fuel suffix
      | none => c :: stripBlocks fuel rest
    else c :: stripBlocks fuel rest

/-- The regex pass replacing `<br\s*\/?>` (case-insensitive) by a newline. -/
def brToNewline : Nat → List Char → List Char
  | 0, l => l
  | _ + 1, [] => []
  | fuel + 1, c :: rest =>
    if hasPreCI "<br".data (c :: rest) then
      match ((c :: rest).drop 3).dropWhile isJsSpace with
      | '/' :: '>' :: tail => '\n' :: brToNewline fuel tail
      | '>' :: tail => '\n' :: brToNewline fuel tail
      | _ => c :: brToNewline fuel rest
    else c :: brToNewline fuel rest

/-- The regex pass replacing `</p>` (case-insensitive) by a blank line. -/
def pCloseToBreaks : Nat → List Char → List Char
  | 0, l => l
  | _ + 1, [] => []
  | fuel + 1, c :: rest =>
    if hasPreCI "</p>".data (c :: rest) then
      '\n' :: '\n' :: pCloseToBreaks fuel ((c :: rest).drop 4)
    else c :: pCloseToBreaks fuel rest

/-- Scan for the closing `>` of a tag; returns the suffix after it. -/
def tagEndGo : List Char → Option (List Char)
  | [] => none
  | '>' :: t => some t
  | _ :: t => tagEndGo t

/-- After `<`, the regex `[^>]+>` needs at least one non-`>` character and a
closing `>`; returns the suffix after the `>`. -/
def tagEnd : List Char → Option (List Char)
  | [] => none
  | '>' :: _ => none
  | _ :: rest => tagEndGo rest

/-- The regex pass deleting every remaining `<[^>]+>` tag. -/
def stripTags (repl : List Char) : Nat → List Char → List Char
  | 0, l => l
  | _ + 1, [] => []
  | fuel + 1, c :: rest =>
    if c = '<' then
      match tagEnd rest with
      | some suffix => repl ++ stripTags repl fuel suffix
      | none => c :: stripTags repl fuel rest
    else c :: stripTags repl fuel rest

/-- Global replacement of a fixed non-empty pattern (the entity decodes). -/
def replaceSub (pat repl : List Char) : Nat → List Char → List Char
  | 0, l => l
  | _ + 1, [] => []
  | fuel + 1, c :: rest =>
    if hasPre pat (c :: rest) then
      repl ++ replaceSub pat repl fuel ((c :: rest).drop pat.length)
    else c :: replaceSub pat repl fuel rest

/-- htmlToText (src/unnamed/part_001 lines 112-122, identical in part_002
lines 76-86): String(html) with the default parameter `""` for undefined,
then the chain of regex replaces of the source, modelled by the scanners
above (each pass gets its input length as fuel, enough to consume it). -/
def htmlToText (html : JsVal) : String :=
  let s := match html with
    | .undefined => ""
    | v => jsToString v
  let l0 := s.data
  let l1 := stripBlocks l0.length l0
  let l2 := brToNewline l1.length l1
  let l3 := pCloseToBreaks l2.length l2
  let l4 := stripTags [] l3.length l3
  let l5 := replaceSub "&nbsp;".data " ".data l4.length l4
  let l6 := replaceSub "&amp;".data "&".data l5.length l5
  let l7 := replaceSub "&lt;".data "<".data l6.length l6
  let l8 := replaceSub "&gt;".data ">".data l7.length l7
  String.mk l8

/-- pickCustomerEmail (src/unnamed/part_001 lines 123-131, identical in
part_002 lines 87-95): first truthy of four optional-chain email paths,
else null.  Only optional chaining is used, so it can never throw. -/
def pickCustomerEmail (data : JsVal) : JsVal :=
  jsOr (chainGet (chainGet data "contactInfo") "email")
    (jsOr (chainGet (chainGet data "contact") "email")
      (jsOr (chainGet (chainGet data "customer") "email")
        (jsOr (chainGet (chainGet (chainGet data "conversation") "contact") "email")
          .null)))

/-- The loop body of lastOutboundEmailThread: walking the threads array from
the end, return the first entry whose type is "email" and direction
"outbound" (case-insensitive after String()); null when none is. -/
def lastOutboundPick : List JsVal → JsVal
  | [] => .null
  | t :: rest =>
    if lowerStr (jsToString (chainGet t "type")) = "email"
        && lowerStr (jsToString (chainGet t "direction")) = "outbound" then t
    else lastOutboundPick rest

/-- lastOutboundEmailThread (src/unnamed/part_001 lines 132-146, identical in
part_002 lines 96-110).  The two plain reads `data.threads` and
`data.conversation.threads` are guarded by Array.isArray tests on the same
optional-chain paths. -/
def lastOutboundEmailThread (data : JsVal) : Except JsErr JsVal := do
  let threads ←
    if isArrayB (chainGet data "threads") then do
      let t ← rawGet data "threads"
      pure (arrElems t)
    else if isArrayB (chainGet (chainGet data "conversation") "threads") then do
      let c ← rawGet data "conversation"
      let t ← rawGet c "threads"
      pure (arrElems t)
    else
      pure []
  pure (lastOutboundPick threads.reverse)

/-- lastOutboundEmailThread never throws: each plain property read is
guarded by an Array.isArray test that fails on nullish bases. -/
theorem lastOutboundEmailThread_ok (data : JsVal) :
    ∃ v, lastOutboundEmailThread data = .ok v := by
  unfold lastOutboundEmailThread
  by_cases h1 : isArrayB (chainGet data "threads") = true
  · rw [rawGet_of_chain_array _ _ h1]
    simp [h1]
  · by_cases h2 : isArrayB (chainGet (chainGet data "conversation") "threads") = true
    · have hconv : rawGet data "conversation" = .ok (chainGet data "conversation") := by
        cases data <;> simp_all [chainGet, isArrayB, rawGet]
      simp only [Bool.not_eq_true] at h1
      simp only [h1, h2, hconv, Bool.false_eq_true, if_false, if_true,
        Bind.bind, Except.bind, rawGet_of_chain_array _ _ h2]
      exact ⟨_, rfl⟩
    · simp only [Bool.not_eq_true] at h1 h2
      simp [h1, h2]
      exact ⟨_, rfl⟩

/-- Environment configuration of the add-contact-note functions: base URL,
the two directory tokens, the webhook secret (empty string = unset, matching
JS truthiness of a missing env var) and the ALLOW_UNVERIFIED_WEBHOOKS flag. -/
structure Cfg where
  base : String
  apiToken : String
  wsToken : String
  secret : String
  allowUnverified : Bool

/-- An inbound request: method, header lookup (none = absent header) and the
optional raw body. -/
structure Event where
  httpMethod : String
  headers : String → Option String
  body : Option String

/-- The signature header: `event.headers["x-td-signature"] ||
event.headers["X-TD-Signature"] || ""`. -/
def sigHeaderRaw (ev : Event) : String :=
  jsOrS (ev.headers "x-td-signature") (jsOrS (ev.headers "X-TD-Signature") "")

/-- `headerRaw.replace(/^sha1=/i, "")`: strip one leading case-insensitive
`sha1=`. -/
def dropSha1 (s : String) : String :=
  match s.data with
  | c1 :: c2 :: c3 :: c4 :: c5 :: rest =>
    if lowChar c1 = 's' && lowChar c2 = 'h' && lowChar c3 = 'a'
        && c4 = '1' && c5 = '=' then String.mk rest
    else s
  | _ => s

/-- verifyTdSignature (src/unnamed/part_001 lines 73-109, identical logic in
part_002 lines 47-73).  `hmac secret content` stands for the Node builtin
crypto HMAC-SHA1 base64 digest, `strfy` for JSON.stringify, and `parse` for
JSON.parse with `none` for a parse failure (the catch sets payload = null). -/
def verifyTdSignature (hmac : String → String → String) (strfy : JsVal → String)
    (parse : String → Option JsVal) (cfg : Cfg) (ev : Event) : Bool :=
  if cfg.secret = "" then true
  else if cfg.allowUnverified then true
  else
    let header := trimStr (dropSha1 (sigHeaderRaw ev))
    if header = "" then false
    else
      let bodyStr := ev.body.getD ""
      let payload := parse bodyStr
      let c1 : Option String :=
        match extractRawDataSubstring bodyStr with
        | some raw => if raw = "" then none else some (hmac cfg.secret raw)
        | none => none
      let c2 : Option String :=
        match payload with
        | some p =>
          if truthy p && truthy (getOwn p "data") then
            some (hmac cfg.secret (strfy (getOwn p "data")))
          else none
        | none => none
      let c3 := hmac cfg.secret bodyStr
      [c1, c2, some c3].any fun s =>
        match s with
        | some sig => sig ≠ "" && sig = header
        | none => false

/-- Characterisation of verifyTdSignature when a secret is configured and the
bypass is off: accept exactly when the normalised header is non-empty and
one of the three candidate HMACs equals it. -/
theorem verifyTdSignature_iff (hmac : String → String → String)
    (strfy : JsVal → String) (parse : String → Option JsVal)
    (cfg : Cfg) (ev : Event) (hs : cfg.secret ≠ "")
    (ha : cfg.allowUnverified = false) :
    verifyTdSignature hmac strfy parse cfg ev = true ↔
      (trimStr (dropSha1 (sigHeaderRaw ev)) ≠ "" ∧
        ((∃ raw, extractRawDataSubstring (ev.body.getD "") = some raw ∧
            hmac cfg.secret raw = trimStr (dropSha1 (sigHeaderRaw ev)))
         ∨ (∃ p, parse (ev.body.getD "") = some p ∧ truthy p = true ∧
              truthy (getOwn p "data") = true ∧
              hmac cfg.secret (strfy (getOwn p "data")) =
                trimStr (dropSha1 (sigHeaderRaw ev)))
         ∨ hmac cfg.secret (ev.body.getD "") =
             trimStr (dropSha1 (sigHeaderRaw ev)))) := by
  unfold verifyTdSignature
  rw [if_neg hs, ha, if_neg (by simp)]
  set header := trimStr (dropSha1 (sigHeaderRaw ev)) with hh
  by_cases hz : header = ""
  · simp [hz]
  · rw [if_neg hz]
    constructor
    · intro h
      refine ⟨hz, ?_⟩
      simp only [List.any_eq_true, List.mem_cons, List.mem_singleton] at h
      obtain ⟨s, hmem, hsig⟩ := h
      rcases hmem with h1 | h2 | h3 | hfalse
      · subst h1
        cases hraw : extractRawDataSubstring (ev.body.getD "") with
        | none => simp [hraw] at hsig
        | some raw =>
          simp only [hraw] at hsig
          by_cases hre : raw = ""
          · simp [hre] at hsig
          · simp only [hre, if_neg, ite_false, Bool.and_eq_true, decide_eq_true_eq] at hsig
            exact Or.inl ⟨raw, rfl, hsig.2⟩
      · subst h2
        cases hp : parse (ev.body.getD "") with
        | none => simp [hp] at hsig
        | some p =>
          simp only [hp] at hsig
          by_cases htr : truthy p && truthy (getOwn p "data")
          · simp only [htr, if_true, Bool.and_eq_true, decide_eq_true_eq] at hsig
            simp only [Bool.and_eq_true] at htr
            exact Or.inr (Or.inl ⟨p, rfl, htr.1, htr.2, hsig.2⟩)
          · simp [htr] at hsig
      · subst h3
        simp only [Bool.and_eq_true, decide_eq_true_eq] at hsig
        exact Or.inr (Or.inr hsig.2)
      · simp at hfalse
    · rintro ⟨-, hcand⟩
      simp only [List.any_eq_true, List.mem_cons, List.mem_singleton]
      rcases hcand with ⟨raw, hraw, heq⟩ | ⟨p, hp, ht1, ht2, heq⟩ | heq
      · refine ⟨some (hmac cfg.secret raw), Or.inl ?_, ?_⟩
        · rw [hraw]
          have : raw ≠ "" := extractRawDataSubstring_ne_empty _ _ hraw
          simp [this]
        · simp only [Bool.and_eq_true, decide_eq_true_eq]
          exact ⟨by simp [heq, hz], heq⟩
      · refine ⟨some (hmac cfg.secret (strfy (getOwn p "data"))), Or.inr (Or.inl ?_), ?_⟩
        · rw [hp]
          simp [ht1, ht2]
        · simp only [Bool.and_eq_true, decide_eq_true_eq]
          exact ⟨by simp [heq, hz], heq⟩
      · refine ⟨some (hmac cfg.secret (ev.body.getD "")), Or.inr (Or.inr (Or.inl rfl)), ?_⟩
        simp only [Bool.and_eq_true, decide_eq_true_eq]
        exact ⟨by simp [heq, hz], heq⟩

/-- hmacValid (src/unnamed/part_000 lines 7-12): reject when the signature
header or the secret is missing, otherwise compare the header against the
HMAC of JSON.stringify(dataObj). -/
def hmacValid (strfy : JsVal → String) (hmac : String → String → String)
    (dataObj : JsVal) (signature : Option String) (secret : String) : Bool :=
  if (match signature with | some s => s = "" | none => true) || secret = "" then
    false
  else
    signature.getD "" = hmac secret (strfy dataObj)

/-- hmacOk (src/unnamed/part_003 lines 6-27).  `hmacHex`/`hmacB64` stand for
the hex and base64 HMAC-SHA1 digests.  crypto.timingSafeEqual on equal-length
buffers is byte equality; the final fallback accepts whenever the header
merely contains one of the four candidates. -/
def hmacOk (hmacHex hmacB64 : String → String → String)
    (secret raw : String) (sigHeader : Option String) : Bool :=
  if secret = "" then true
  else if (match sigHeader with | some s => s = "" | none => true) || raw = "" then
    false
  else
    let sig := sigHeader.getD ""
    let hex := hmacHex secret raw
    let b64 := hmacB64 secret raw
    let candidates := [hex, "sha1=" ++ hex, b64, "sha1=" ++ b64]
    if candidates.any (fun c => c.length = sig.length && c = sig) then true
    else candidates.any (fun c => containsSubStr sig c)

/-- Modelled from the spec: a RemoteContact record of the directory service,
"a numeric/string identifier (contactId), and a set of candidate email fields
(primary, alternate, custom)".  JSON payloads returned by the directory are
abstracted to this record shape, the only one the code reads. -/
structure ContactRec where
  CONTACTID : Option Int
  EMAILADDRESS : Option String
  EMAILADDRESSALTERNATIVE : Option String
  CUSTOMFIELD_PERSONALEMAIL : Option String
deriving DecidableEq, Repr

/-- A JSON body returned by the directory: an array of records, a single
truthy non-array record, or a falsy body. -/
inductive BodyVal where
  | arrv : List ContactRec → BodyVal
  | singlev : ContactRec → BodyVal
  | emptyv : BodyVal
deriving DecidableEq, Repr

/-- Result of one axcFetch call: res.ok, res.status and the parsed body. -/
structure FetchRes where
  ok : Bool
  status : Int
  body : BodyVal
deriving DecidableEq, Repr

/-- `Array.isArray(r.body) ? r.body : r.body ? [r.body] : []`. -/
def arrOfBody : BodyVal → List ContactRec
  | .arrv l => l
  | .singlev c => [c]
  | .emptyv => []

/-- isExactEmail (src/unnamed/part_001 lines 162-168): some email field is
present, non-empty and case-insensitively equal to the target. -/
def isExactEmail (rec : ContactRec) (targetLower : String) : Bool :=
  (match rec.EMAILADDRESS with
   | some s => s ≠ "" && lowerStr s = targetLower
   | none => false) ||
  (match rec.EMAILADDRESSALTERNATIVE with
   | some s => s ≠ "" && lowerStr s = targetLower
   | none => false) ||
  (match rec.CUSTOMFIELD_PERSONALEMAIL with
   | some s => s ≠ "" && lowerStr s = targetLower
   | none => false)

/-- Stage 1 of findContactByEmail: the direct /api/contacts endpoint, exact
field match over the (array-or-wrapped) body. -/
def stage1Pick (lower : String) (r1 : FetchRes) : Option ContactRec :=
  if r1.ok then (arrOfBody r1.body).find? (fun c => isExactEmail c lower)
  else none

/-- Stage 2: /api/contacts/search?emailAddress=, exact field match, then the
single-result heuristic. -/
def stage2Pick (lower : String) (r2 : FetchRes) : Option ContactRec :=
  if r2.ok then
    match r2.body with
    | .arrv l =>
      match l.find? (fun c => isExactEmail c lower) with
      | some c => some c
      | none => if l.length = 1 then l.head? else none
    | _ => none
  else none

/-- Stage 3: the broad /api/contacts/search?search= query, exact match only. -/
def stage3Pick (lower : String) (r3 : FetchRes) : Option ContactRec :=
  if r3.ok then
    match r3.body with
    | .arrv l => l.find? (fun c => isExactEmail c lower)
    | _ => none
  else none

/-- Result of findContactByEmail: the contact, if any, and the ordered list
of attempted query URLs. -/
structure FindResult where
  contact : Option ContactRec
  tried : List String
deriving Repr

/-- findContactByEmail (src/unnamed/part_001 lines 169-201).  `enc` stands
for encodeURIComponent; `r1 r2 r3` are the directory's responses to the three
queries, in order. -/
def findContactByEmail (cfg : Cfg) (enc : String → String) (email : String)
    (r1 r2 r3 : FetchRes) : FindResult :=
  let e := enc email
  let lower := lowerStr email
  let u1 := cfg.base ++ "/api/contacts?emailAddress=" ++ e
  match stage1Pick lower r1 with
  | some c => ⟨some c, [u1]⟩
  | none =>
    let u2 := cfg.base ++ "/api/contacts/search?emailAddress=" ++ e ++ "&displayLength=50"
    match stage2Pick lower r2 with
    | some c => ⟨some c, [u1, u2]⟩
    | none =>
      let u3 := cfg.base ++ "/api/contacts/search?search=" ++ e ++ "&displayLength=50"
      match stage3Pick lower r3 with
      | some c => ⟨some c, [u1, u2, u3]⟩
      | none => ⟨none, [u1, u2, u3]⟩

/-- The resolver's diagnostic URL list always contains the first query. -/
theorem findContactByEmail_tried_ne_nil (cfg : Cfg) (enc : String → String)
    (email : String) (r1 r2 r3 : FetchRes) :
    (findContactByEmail cfg enc email r1 r2 r3).tried ≠ [] := by
  unfold findContactByEmail
  dsimp only []
  split
  · simp
  · split
    · simp
    · split <;> simp

/-- If filtering a list by `p` leaves exactly `[r]`, then find? returns `r`. -/
theorem find?_of_filter_singleton {α : Type} (p : α → Bool) (l : List α) (r : α)
    (h : l.filter p = [r]) : l.find? p = some r := by
  induction l with
  | nil => simp at h
  | cons a rest ih =>
    by_cases hp : p a
    · rw [List.filter_cons_of_pos hp] at h
      obtain ⟨h1, -⟩ := List.cons_eq_cons.mp h
      rw [List.find?_cons_of_pos _ hp, h1]
    · rw [List.filter_cons_of_neg (by simpa using hp)] at h
      rw [List.find?_cons_of_neg _ (by simpa using hp)]
      exact ih h

/-- String.prototype.slice(0, n). -/
def sliceMax (n : Nat) (s : String) : String := String.mk (s.data.take n)

/-- An HTTP response of a handler.  Response bodies are modelled
structurally, before the JSON.stringify the source applies to them. -/
structure Resp where
  statusCode : Nat
  rbody : JsVal

/-- Using a truthy extracted email value as a string (the
`email.toLowerCase()` call inside findContactByEmail): a non-string value
throws TypeError there. -/
def asStrE : JsVal → Except JsErr String
  | .str s => .ok s
  | _ => .error ⟨"TypeError"⟩

/-- The untruncated note composition of the part_001 handler (lines 248-277
up to the slice): last outbound thread, subject and body fallbacks, optional
From and Conversation ID lines, falsy lines dropped by filter(Boolean),
joined with newlines. -/
def composeNoteFull (data customerEmail : JsVal) : Except JsErr String :=
  (lastOutboundEmailThread data).bind fun outbound =>
    let subject := jsOr (chainGet outbound "subject")
      (jsOr (chainGet data "subject")
        (jsOr (chainGet (chainGet data "conversation") "subject") (.str "(no subject)")))
    let plain := jsOr (chainGet outbound "textBody")
      (.str (htmlToText (jsOr (chainGet outbound "htmlBody")
        (jsOr (chainGet (chainGet data "message") "htmlBody")
          (jsOr (chainGet (chainGet data "message") "body") (.str ""))))))
    let inboxName := jsOr (chainGet (chainGet data "inbox") "name") (.str "")
    let inboxAddr := jsOr (chainGet (chainGet data "inbox") "connectedEmailAddress") (.str "")
    let convId := jsOr (chainGet (chainGet data "conversation") "id")
      (jsOr (chainGet data "ticketId") (chainGet data "id"))
    let els : List JsVal := [
      .str "Email sent via ThriveDesk",
      .str ("To: " ++ jsToString customerEmail),
      .str ("Subject: " ++ jsToString subject),
      (if truthy (jsOr inboxName inboxAddr) then
        .str ("From: " ++ jsToString inboxName ++
          (if truthy inboxAddr then " <" ++ jsToString inboxAddr ++ ">" else ""))
       else .null),
      (if truthy convId then .str ("Conversation ID: " ++ jsToString convId) else .null),
      .str "",
      jsOr plain (.str "(no body)")]
    .ok (jsJoin "\n" (els.filter truthy))

/-- The note of the part_001 handler: the composition above, sliced to
60000 characters. -/
def composeNote (data customerEmail : JsVal) : Except JsErr String :=
  (composeNoteFull data customerEmail).map (sliceMax 60000)

/-- Note composition never throws. -/
theorem composeNoteFull_ok (data customerEmail : JsVal) :
    ∃ s, composeNoteFull data customerEmail = .ok s := by
  obtain ⟨v, hv⟩ := lastOutboundEmailThread_ok data
  exact ⟨_, by rw [composeNoteFull, hv]; rfl⟩

/-- `!contact?.CONTACTID`, negated: the resolved contact exists and has a
truthy CONTACTID. -/
def contactIdTruthy : Option ContactRec → Bool
  | some r => (match r.CONTACTID with | some n => n != 0 | none => false)
  | none => false

/-- The CONTACTID of a resolved contact (only used on the truthy branch). -/
def contactIdOf : Option ContactRec → Int
  | some r => r.CONTACTID.getD 0
  | none => 0

/-- The body of the part_001 handler (src/unnamed/part_001 lines 214-300),
inside its try block: method, configuration and body guards, signature
verification, JSON parse, email extraction, note composition, contact
resolution and the note write.  `put` is the directory's response to the
note PUT. -/
def handler1body (hmac : String → String → String) (strfy : JsVal → String)
    (parse : String → Option JsVal) (enc : String → String)
    (cfg : Cfg) (ev : Event) (r1 r2 r3 put : FetchRes) : Except JsErr Resp :=
  if ev.httpMethod ≠ "POST" then
    .ok ⟨405, .obj [("error", .str "Use POST with JSON")]⟩
  else if cfg.base = "" || cfg.apiToken = "" || cfg.wsToken = "" then
    .ok ⟨500, .obj [("error", .str "Missing aXcelerate env vars")]⟩
  else if ev.body.getD "" = "" then
    .ok ⟨400, .obj [("error", .str "Missing body")]⟩
  else if verifyTdSignature hmac strfy parse cfg ev = false
      && cfg.allowUnverified = false then
    .ok ⟨401, .obj [("error", .str "Signature check failed")]⟩
  else
    match parse (ev.body.getD "") with
    | none => .ok ⟨400, .obj [("error", .str "Body must be JSON")]⟩
    | some payload =>
      let data := jsOr (chainGet payload "data") payload
      let customerEmail := pickCustomerEmail data
      if truthy customerEmail = false then
        .ok ⟨200, .obj [("ok", .bool true), ("skipped", .str "no customer email")]⟩
      else
        (composeNote data customerEmail).bind fun note =>
          (asStrE customerEmail).bind fun emailStr =>
            let fr := findContactByEmail cfg enc emailStr r1 r2 r3
            if contactIdTruthy fr.contact = false then
              .ok ⟨200, .obj [("ok", .bool true), ("skipped", .str "contact not found"),
                ("tried", .arr (fr.tried.map .str))]⟩
            else if put.ok = false then
              .ok ⟨502, .obj [("error", .str "aXcelerate note create failed"),
                ("status", .num put.status)]⟩
            else
              .ok ⟨200, .obj [("ok", .bool true),
                ("contactID", .num (contactIdOf fr.contact)),
                ("email", customerEmail),
                ("noteLength", .num (note.length : Int))]⟩

/-- The part_001 handler with its catch clause: a thrown error becomes a 500
response carrying String(err.message || err). -/
def handler1 (hmac : String → String → String) (strfy : JsVal → String)
    (parse : String → Option JsVal) (enc : String → String)
    (cfg : Cfg) (ev : Event) (r1 r2 r3 put : FetchRes) : Resp :=
  match handler1body hmac strfy parse enc cfg ev r1 r2 r3 put with
  | .ok r => r
  | .error e => ⟨500, .obj [("error", .str e.message)]⟩

/-- JS `arr.length` truthiness for the guard `Array.isArray(x) && x.length`. -/
def arrLenTruthy : JsVal → Bool
  | .arr (_ :: _) => true
  | _ => false

/-- extractEmail (src/unnamed/part_003 lines 39-56): candidate email values
from several payload shapes, filtered by truthiness, first one or null.
The element read `msg.to[0].email` can throw when the first recipient entry
is nullish, hence the exception monad. -/
def extractEmail (payload : JsVal) : Except JsErr JsVal := do
  let p := jsOr payload (.obj [])
  let pd ← rawGet p "data"
  let d := jsOr pd p
  let dc ← rawGet d "conversation"
  let pc ← rawGet p "conversation"
  let conv := jsOr dc (jsOr pc (.obj []))
  let dm ← rawGet d "message"
  let pm ← rawGet p "message"
  let msg := jsOr dm (jsOr pm (.obj []))
  let dcu ← rawGet d "customer"
  let pcu ← rawGet p "customer"
  let ccu ← rawGet conv "customer"
  let cust := jsOr dcu (jsOr pcu (jsOr ccu (.obj [])))
  let c1 ← rawGet cust "email"
  let c2 ← rawGet cust "emailAddress"
  let c3 := chainGet (chainGet conv "customer") "email"
  let c4 := chainGet (chainGet conv "customer") "emailAddress"
  let mto ← rawGet msg "to"
  let c5 ←
    if isArrayB mto && arrLenTruthy mto then do
      let e0 := idx0 mto
      let a ← rawGet e0 "email"
      if truthy a then pure a else rawGet e0 "address"
    else pure .null
  let c6 := jsOr (chainGet (chainGet msg "from") "email")
    (chainGet (chainGet msg "from") "address")
  let cands := [c1, c2, c3, c4, c5, c6].filter truthy
  pure (jsOr (cands.headD .undefined) .null)

/-- `a || b` equal to a string value means that string is truthy or came
from a fallback with the same bound. -/
theorem jsOr_str_ne_empty (a b : JsVal) (s : String)
    (hb : b = .str s → s ≠ "") (h : jsOr a b = .str s) : s ≠ "" := by
  unfold jsOr at h
  split at h
  · rename_i ht
    subst h
    simpa [truthy] using ht
  · exact hb h

/-- pickCustomerEmail yields non-empty strings: a string result is the first
truthy candidate, and truthiness of a string is non-emptiness. -/
theorem pickCustomerEmail_str_ne_empty (d : JsVal) (s : String)
    (h : pickCustomerEmail d = .str s) : s ≠ "" := by
  unfold pickCustomerEmail at h
  refine jsOr_str_ne_empty _ _ _ (fun h2 => ?_) h
  refine jsOr_str_ne_empty _ _ _ (fun h3 => ?_) h2
  refine jsOr_str_ne_empty _ _ _ (fun h4 => ?_) h3
  refine jsOr_str_ne_empty _ _ _ (fun h5 => ?_) h4
  exact absurd h5 (by simp)

/-- extractEmail yields non-empty strings. -/
theorem extractEmail_str_ne_empty (p : JsVal) (t : String)
    (h : extractEmail p = .ok (.str t)) : t ≠ "" := by
  unfold extractEmail at h
  simp only [bind, Except.bind, pure, Except.pure] at h
  repeat' (split at h)
  all_goals try exact Except.noConfusion h
  all_goals
    simp only [Except.ok.injEq] at h
    exact jsOr_str_ne_empty _ _ _ (fun hb => absurd hb (by simp)) h

/-- A transparent stand-in for the HMAC builtin, used only to instantiate
parametric theorems at concrete inputs. -/
def hmacStub : String → String → String :=
  fun secret content => "H[" ++ secret ++ "|" ++ content ++ "]"

/-- A stand-in JSON.stringify for concrete instantiations. -/
def strfyStub : JsVal → String := fun _ => "S"

/-- A stand-in JSON.parse that always fails. -/
def parseFail : String → Option JsVal := fun _ => none

/-- The identity as a stand-in encodeURIComponent (the identity on the
ASCII-safe inputs used in witnesses). -/
def idEnc : String → String := fun s => s

/-- C1: for every inbound request where a webhook secret is configured and
the unverified bypass is off, verifyTdSignature accepts iff the signature
header, after stripping an optional sha1= prefix and trimming, is non-empty
and equals the HMAC-SHA1 (base64, under the secret — the parameter `hmac`)
of one of the three candidate inputs: the raw substring of the body that
constitutes the data value (extractRawDataSubstring), the re-serialisation
of the parsed data value (when the body parses and the value is truthy, the
guard `payload && payload.data` of the source), or the entire raw body. -/
theorem C1_signature_iff (hmac : String → String → String)
    (strfy : JsVal → String) (parse : String → Option JsVal)
    (cfg : Cfg) (ev : Event) (hs : cfg.secret ≠ "")
    (ha : cfg.allowUnverified = false) :
    verifyTdSignature hmac strfy parse cfg ev = true ↔
      (trimStr (dropSha1 (sigHeaderRaw ev)) ≠ "" ∧
        ((∃ raw, extractRawDataSubstring (ev.body.getD "") = some raw ∧
            hmac cfg.secret raw = trimStr (dropSha1 (sigHeaderRaw ev)))
         ∨ (∃ p, parse (ev.body.getD "") = some p ∧ truthy p = true ∧
              truthy (getOwn p "data") = true ∧
              hmac cfg.secret (strfy (getOwn p "data")) =
                trimStr (dropSha1 (sigHeaderRaw ev)))
         ∨ hmac cfg.secret (ev.body.getD "") =
             trimStr (dropSha1 (sigHeaderRaw ev)))) :=
  verifyTdSignature_iff hmac strfy parse cfg ev hs ha

/-- Configuration used for concrete instantiations: secret "k", bypass off. -/
def cfgW : Cfg := ⟨"https://axc", "tokA", "tokW", "k", false⟩

/-- Concrete event: POST, header `sha1=H[k|BB]` and body "BB", so the
full-raw-body candidate matches the stub HMAC. -/
def evW : Event :=
  ⟨"POST", fun n => if n = "x-td-signature" then some "sha1=H[k|BB]" else none,
    some "BB"⟩

/-- Witness for C1 at a concrete request: the header equals the stub HMAC of
the whole raw body, and the verifier accepts. -/
theorem C1_signature_iff_witness :
    verifyTdSignature hmacStub strfyStub parseFail cfgW evW = true :=
  (C1_signature_iff hmacStub strfyStub parseFail cfgW evW (by decide) rfl).mpr
    ⟨by decide, Or.inr (Or.inr (by decide))⟩

/-- C6: whenever the candidate list returned by a (reached) query stage
contains exactly one record with an exact case-insensitive email-field match
(isExactEmail) and no other record matches, findContactByEmail returns that
record, whatever its position in the list. -/
theorem C6_resolver_exact_match (cfg : Cfg) (enc : String → String)
    (email : String) (r1 r2 r3 : FetchRes) (L : List ContactRec)
    (rec : ContactRec)
    (huniq : L.filter (fun c => isExactEmail c (lowerStr email)) = [rec]) :
    (r1.ok = true → arrOfBody r1.body = L →
      (findContactByEmail cfg enc email r1 r2 r3).contact = some rec)
  ∧ (stage1Pick (lowerStr email) r1 = none → r2.ok = true → r2.body = .arrv L →
      (findContactByEmail cfg enc email r1 r2 r3).contact = some rec)
  ∧ (stage1Pick (lowerStr email) r1 = none → stage2Pick (lowerStr email) r2 = none →
      r3.ok = true → r3.body = .arrv L →
      (findContactByEmail cfg enc email r1 r2 r3).contact = some rec) := by
  have hfind := find?_of_filter_singleton _ L rec huniq
  refine ⟨fun hok harr => ?_, fun h1 hok hbody => ?_, fun h1 h2 hok hbody => ?_⟩
  · have hs1 : stage1Pick (lowerStr email) r1 = some rec := by
      unfold stage1Pick
      rw [if_pos hok, harr, hfind]
    unfold findContactByEmail
    dsimp only []
    rw [hs1]
  · have hs2 : stage2Pick (lowerStr email) r2 = some rec := by
      unfold stage2Pick
      rw [if_pos hok, hbody]
      simp [hfind]
    unfold findContactByEmail
    dsimp only []
    rw [h1, hs2]
  · have hs3 : stage3Pick (lowerStr email) r3 = some rec := by
      unfold stage3Pick
      rw [if_pos hok, hbody]
      simp [hfind]
    unfold findContactByEmail
    dsimp only []
    rw [h1, h2, hs3]

/-- The uniquely matching record of the C6 witness, listed second. -/
def recExact : ContactRec := ⟨some 7, some "a@X.com", none, none⟩

/-- A non-matching record, listed first. -/
def recOther : ContactRec := ⟨some 8, some "b@x.com", none, none⟩

/-- Stage-1 response containing the near-miss before the exact match. -/
def r1W : FetchRes := ⟨true, 200, .arrv [recOther, recExact]⟩

/-- A failed response for the unreached stages. -/
def rDead : FetchRes := ⟨false, 500, .emptyv⟩

/-- Witness for C6: with the exact match in second position of the stage-1
list, the resolver returns it. -/
theorem C6_resolver_exact_match_witness :
    (findContactByEmail cfgW idEnc "A@x.com" r1W rDead rDead).contact =
      some recExact :=
  (C6_resolver_exact_match cfgW idEnc "A@x.com" r1W rDead rDead
    [recOther, recExact] recExact (by decide)).1 rfl rfl

/-- Length of a slice. -/
theorem sliceMax_length (n : Nat) (s : String) :
    (sliceMax n s).length = min n s.length := by
  show (s.data.take n).length = min n s.data.length
  exact List.length_take n s.data

/-- C8: the composed note is never longer than 60000 characters, and when
the untruncated composition exceeds 60000 the note's length is exactly
60000.  The first conjunct pair is the part_001 composition; the last pair
is the part_000 slice `noteBody.slice(0, 60000)`, which applies to every
composed noteBody string. -/
theorem C8_note_bounded (data customerEmail : JsVal) (full note : String)
    (noteBody : String)
    (hfull : composeNoteFull data customerEmail = .ok full)
    (hnote : composeNote data customerEmail = .ok note) :
    (note.length ≤ 60000 ∧ (60000 < full.length → note.length = 60000))
  ∧ ((sliceMax 60000 noteBody).length ≤ 60000 ∧
      (60000 < noteBody.length → (sliceMax 60000 noteBody).length = 60000)) := by
  have hn : note = sliceMax 60000 full := by
    unfold composeNote at hnote
    rw [hfull] at hnote
    simpa [Except.map] using hnote.symm
  subst hn
  refine ⟨⟨?_, fun hgt => ?_⟩, ⟨?_, fun hgt => ?_⟩⟩
  · rw [sliceMax_length]; exact Nat.min_le_left _ _
  · rw [sliceMax_length]; omega
  · rw [sliceMax_length]; exact Nat.min_le_left _ _
  · rw [sliceMax_length]; omega

/-- A string longer than the note bound. -/
def bigStr : String := String.mk (List.replicate 60001 'a')

/-- bigStr has 60001 characters. -/
theorem bigStr_length : bigStr.length = 60001 := by
  show (List.replicate 60001 'a').length = 60001
  exact List.length_replicate 60001 'a'

/-- The untruncated composition at an empty payload (small, evaluable). -/
def fullSmall : String :=
  match composeNoteFull (.obj []) (.str "e") with
  | .ok s => s
  | .error _ => ""

/-- The truncated note at the same payload. -/
def noteSmall : String :=
  match composeNote (.obj []) (.str "e") with
  | .ok s => s
  | .error _ => ""

/-- Witness for C8: the small composition satisfies the bound, and the slice
of a 60001-character body has length exactly 60000. -/
theorem C8_note_bounded_witness :
    noteSmall.length ≤ 60000 ∧ (sliceMax 60000 bigStr).length = 60000 :=
  ⟨(C8_note_bounded (.obj []) (.str "e") fullSmall noteSmall bigStr rfl rfl).1.1,
   (C8_note_bounded (.obj []) (.str "e") fullSmall noteSmall bigStr rfl rfl).2.2
     (by rw [bigStr_length]; omega)⟩

/-- The payload whose contactInfo.email carries surrounding whitespace. -/
def padEmailPayload : JsVal :=
  .obj [("contactInfo", .obj [("email", .str " a@x.com ")])]

/-- Counterexample to C9: extraction returns the email with its leading and
trailing whitespace intact — the produced value is not trimmed. -/
theorem C9_counterexample :
    pickCustomerEmail padEmailPayload = .str " a@x.com " ∧
      trimStr " a@x.com " ≠ " a@x.com " :=
  ⟨rfl, by decide⟩

/-- C9 amended: a present (string) customerEmail produced by
pickCustomerEmail (part_001/part_002) or extractEmail (part_003) is a
non-empty string, but it is returned exactly as found in the payload, with
any leading or trailing whitespace preserved. -/
theorem C9_amended_email_nonempty (d p : JsVal) (s t : String)
    (h1 : pickCustomerEmail d = .str s)
    (h2 : extractEmail p = .ok (.str t)) :
    s ≠ "" ∧ t ≠ "" :=
  ⟨pickCustomerEmail_str_ne_empty d s h1, extractEmail_str_ne_empty p t h2⟩

/-- A payload with a customer email for the C9 witness. -/
def custEmailPayload : JsVal :=
  .obj [("customer", .obj [("email", .str "c@x.com")])]

/-- Witness for the amended C9 at concrete payloads. -/
theorem C9_amended_email_nonempty_witness :
    " a@x.com " ≠ "" ∧ "c@x.com" ≠ "" :=
  C9_amended_email_nonempty padEmailPayload custEmailPayload
    " a@x.com " "c@x.com" rfl rfl

/-- With no secret configured, verifyTdSignature accepts immediately. -/
theorem verifyTdSignature_no_secret (hmac : String → String → String)
    (strfy : JsVal → String) (parse : String → Option JsVal)
    (ba ta wa : String) (al : Bool) (ev : Event) :
    verifyTdSignature hmac strfy parse ⟨ba, ta, wa, "", al⟩ ev = true := by
  unfold verifyTdSignature
  simp

/-- With no secret configured, the part_001 handler body never answers 401. -/
theorem handler1body_ne_401 (hmac : String → String → String)
    (strfy : JsVal → String) (parse : String → Option JsVal)
    (enc : String → String) (ba ta wa : String) (al : Bool) (ev : Event)
    (r1 r2 r3 put : FetchRes) (r : Resp)
    (h : handler1body hmac strfy parse enc ⟨ba, ta, wa, "", al⟩ ev r1 r2 r3 put
      = .ok r) : r.statusCode ≠ 401 := by
  have hv := verifyTdSignature_no_secret hmac strfy parse ba ta wa al ev
  unfold handler1body at h
  simp only [hv, bind, Except.bind, decide_eq_true_eq, Bool.and_eq_true] at h
  repeat' (split at h)
  all_goals try exact Except.noConfusion h
  all_goals try (injection h with h2; rw [← h2]; simp)
  all_goals simp_all

/-- C2 corrected: with no webhook secret configured, verifyTdSignature
(part_001/part_002) accepts every request whatever the header, and the
part_001 handler never responds 401; but hmacValid (part_000) instead
rejects every request whenever the secret is missing, whatever the
signature header. -/
theorem C2_no_secret_behaviour :
    (∀ (hmac : String → String → String) (strfy : JsVal → String)
        (parse : String → Option JsVal) (ba ta wa : String) (al : Bool)
        (ev : Event),
       verifyTdSignature hmac strfy parse ⟨ba, ta, wa, "", al⟩ ev = true)
  ∧ (∀ (hmac : String → String → String) (strfy : JsVal → String)
        (parse : String → Option JsVal) (enc : String → String)
        (ba ta wa : String) (al : Bool) (ev : Event) (r1 r2 r3 put : FetchRes),
       (handler1 hmac strfy parse enc ⟨ba, ta, wa, "", al⟩ ev r1 r2 r3 put).statusCode
         ≠ 401)
  ∧ (∀ (strfy : JsVal → String) (hmac : String → String → String)
        (dataObj : JsVal) (sig : Option String),
       hmacValid strfy hmac dataObj sig "" = false) := by
  refine ⟨verifyTdSignature_no_secret, ?_, ?_⟩
  · intro hmac strfy parse enc ba ta wa al ev r1 r2 r3 put
    unfold handler1
    cases hb : handler1body hmac strfy parse enc ⟨ba, ta, wa, "", al⟩ ev r1 r2 r3 put with
    | error e => simp
    | ok r => exact handler1body_ne_401 hmac strfy parse enc ba ta wa al ev r1 r2 r3 put r hb
  · intro strfy hmac dataObj sig
    unfold hmacValid
    simp

/-- Counterexample to C2 as stated: with no secret configured, the verifier
hmacValid of part_000 rejects a request carrying a signature header, rather
than accepting it. -/
theorem C2_counterexample :
    hmacValid strfyStub hmacStub (.obj []) (some "sha1=whatever") "" = false := by
  decide

/-- Fixed-output stand-in for the hex HMAC digest. -/
def hmacHexStub : String → String → String := fun _ _ => "aabbcc"

/-- Fixed-output stand-in for the base64 HMAC digest. -/
def hmacB64Stub : String → String → String := fun _ _ => "QUJD"

/-- Counterexample to C3: every computed candidate of hmacOk (part_003)
differs from the header (in length and content), yet the verdict is accept,
because the header contains the hex candidate as a substring. -/
theorem C3_counterexample :
    hmacOk hmacHexStub hmacB64Stub "k" "body" (some "xxaabbcc") = true ∧
    hmacHexStub "k" "body" ≠ "xxaabbcc" ∧
    "sha1=" ++ hmacHexStub "k" "body" ≠ "xxaabbcc" ∧
    hmacB64Stub "k" "body" ≠ "xxaabbcc" ∧
    "sha1=" ++ hmacB64Stub "k" "body" ≠ "xxaabbcc" := by
  decide

/-- C3 corrected: verifyTdSignature (part_001/part_002) indeed rejects
whenever every computed candidate differs from the normalised header; but
hmacOk (part_003), whenever no candidate equals the header, decides by
substring containment: it accepts exactly when the header contains one of
the four candidates. -/
theorem C3_no_substring_acceptance :
    (∀ (hmac : String → String → String) (strfy : JsVal → String)
        (parse : String → Option JsVal) (cfg : Cfg) (ev : Event),
       cfg.secret ≠ "" → cfg.allowUnverified = false →
       hmac cfg.secret (ev.body.getD "") ≠ trimStr (dropSha1 (sigHeaderRaw ev)) →
       (∀ raw, extractRawDataSubstring (ev.body.getD "") = some raw →
         hmac cfg.secret raw ≠ trimStr (dropSha1 (sigHeaderRaw ev))) →
       (∀ p, parse (ev.body.getD "") = some p →
         hmac cfg.secret (strfy (getOwn p "data")) ≠ trimStr (dropSha1 (sigHeaderRaw ev))) →
       verifyTdSignature hmac strfy parse cfg ev = false)
  ∧ (∀ (hex b64 : String → String → String) (secret raw s : String),
       secret ≠ "" → s ≠ "" → raw ≠ "" →
       hex secret raw ≠ s → "sha1=" ++ hex secret raw ≠ s →
       b64 secret raw ≠ s → "sha1=" ++ b64 secret raw ≠ s →
       hmacOk hex b64 secret raw (some s) =
         [hex secret raw, "sha1=" ++ hex secret raw, b64 secret raw,
           "sha1=" ++ b64 secret raw].any (fun c => containsSubStr s c)) := by
  constructor
  · intro hmac strfy parse cfg ev hs ha h3 h1 h2
    by_contra hcon
    rw [Bool.not_eq_false] at hcon
    rcases (verifyTdSignature_iff hmac strfy parse cfg ev hs ha).mp hcon with
      ⟨-, ⟨raw, hraw, heq⟩ | ⟨p, hp, -, -, heq⟩ | heq⟩
    · exact h1 raw hraw heq
    · exact h2 p hp heq
    · exact h3 heq
  · intro hex b64 secret raw s hs hne hraw h1 h2 h3 h4
    unfold hmacOk
    rw [if_neg hs]
    rw [if_neg (by simp [hne, hraw])]
    rw [if_neg ?hneq]
    case hneq =>
      simp only [List.any_eq_true, Bool.and_eq_true, decide_eq_true_eq, not_exists]
      rintro c ⟨hc, -, hceq⟩
      simp only [List.mem_cons, List.mem_singleton] at hc
      rcases hc with rfl | rfl | rfl | rfl | hfalse
      · exact h1 hceq
      · exact h2 hceq
      · exact h3 hceq
      · exact h4 hceq
      · simp at hfalse
    rfl

/-- Event for the C3 witness: a header that matches no candidate. -/
def evMismatch : Event :=
  ⟨"POST", fun n => if n = "x-td-signature" then some "ZZZ" else none, some "BB"⟩

/-- Witness for the corrected C3: at concrete inputs with no matching
candidate, verifyTdSignature rejects, and hmacOk reduces to the substring
test, which fails for a header containing no candidate. -/
theorem C3_no_substring_acceptance_witness :
    verifyTdSignature hmacStub strfyStub parseFail cfgW evMismatch = false ∧
    hmacOk hmacHexStub hmacB64Stub "k" "body" (some "zz") = false := by
  constructor
  · exact C3_no_substring_acceptance.1 hmacStub strfyStub parseFail cfgW evMismatch
      (by decide) rfl (by decide)
      (by
        intro raw hraw
        have h0 : extractRawDataSubstring (evMismatch.body.getD "") = none := by decide
        rw [h0] at hraw
        exact absurd hraw (by simp))
      (fun p hp => absurd hp (by simp [parseFail]))
  · exact (C3_no_substring_acceptance.2 hmacHexStub hmacB64Stub "k" "body" "zz"
      (by decide) (by decide) (by decide) (by decide) (by decide) (by decide)
      (by decide)).trans (by decide)

/-- The body in which a nested object's "data" key (value 1, not an object)
textually precedes the top-level "data" key whose value is an object:
the characters are exactly (braces written with escapes)
\x7b"a":\x7b"data":1\x7d,"data":\x7b"b":2\x7d\x7d . -/
def shadowedBody : String := "\x7b\"a\":\x7b\"data\":1\x7d,\"data\":\x7b\"b\":2\x7d\x7d"

/-- C4, failing input: extractRawDataSubstring keys off the FIRST textual
occurrence of `"data"` (String.indexOf), not the top-level key its own
comment promises; on shadowedBody the first occurrence's value is `1`, so
extraction returns null although a top-level "data" key with a balanced
object value follows.  The second conjunct shows the same key and value,
unshadowed, extract fine. -/
theorem C4_first_occurrence_shadows :
    extractRawDataSubstring shadowedBody = none ∧
    extractRawDataSubstring "\x7b\"data\":\x7b\"b\":2\x7d\x7d" =
      some "\x7b\"b\":2\x7d" := by
  constructor
  · decide
  · decide

/-- JS `a && b`. -/
def jsAnd (a b : JsVal) : JsVal := if truthy a then b else a

/-- Collapse null to undefined (the `a[k] != null ? a[k] : undefined` step). -/
def denull : JsVal → JsVal
  | .null => .undefined
  | .undefined => .undefined
  | v => v

/-- get(p, o) of netlify/functions/add-contact-note.js line 36:
`p.split(".").reduce((a, k) => (a && a[k] != null ? a[k] : undefined), o)`.
The read `a[k]` happens only under the truthiness guard, so it never throws;
the guard is kept explicit through the exception monad. -/
def jsGetPath (o : JsVal) : List String → Except JsErr JsVal
  | [] => .ok o
  | k :: rest =>
    if truthy o then
      (rawGet o k).bind fun v => jsGetPath (denull v) rest
    else jsGetPath .undefined rest

/-- jsGetPath never throws. -/
theorem jsGetPath_ok (path : List String) :
    ∀ o, ∃ v, jsGetPath o path = .ok v := by
  induction path with
  | nil => exact fun o => ⟨o, rfl⟩
  | cons k rest ih =>
    intro o
    unfold jsGetPath
    by_cases ht : truthy o = true
    · rw [if_pos ht, rawGet_ok_of_truthy o k ht]
      simp only [bind, Except.bind]
      exact ih _
    · rw [if_neg ht]
      exact ih _

/-- pick(...vals) of netlify/functions/add-contact-note.js line 37: the first
value that is a string with non-empty trim; undefined when none is. -/
def jsPick (vals : List JsVal) : JsVal :=
  (vals.find? fun v =>
    match v with
    | .str s => trimStr s != ""
    | _ => false).getD .undefined

/-- The record extractFromThriveDesk assembles. -/
structure TdExtract where
  email : JsVal
  contactId : JsVal
  subject : JsVal
  htmlBody : JsVal
  textBody : JsVal
  agent : JsVal
  ticketUrl : JsVal

/-- extractFromThriveDesk (netlify/functions/add-contact-note.js lines
75-132, first file of the pair): candidate paths for email, contactId,
subject, bodies, agent and ticket number over the common ThriveDesk shapes. -/
def extractFromThriveDesk (payload : JsVal) : Except JsErr TdExtract := do
  let e1 ← jsGetPath payload ["contact", "email"]
  let e2 ← jsGetPath payload ["customer", "email"]
  let e3 ← jsGetPath payload ["data", "contact", "email"]
  let e4 ← jsGetPath payload ["data", "customer", "email"]
  let e5 ← jsGetPath payload ["data", "conversation", "customer", "email"]
  let e6 ← jsGetPath payload ["conversation", "customer", "email"]
  let e7 ← jsGetPath payload ["conversation", "contact", "email"]
  let e8 ← jsGetPath payload ["message", "to_email"]
  let mto ← jsGetPath payload ["message", "to"]
  let e9 := if isArrayB mto then idx0 mto else .bool false
  let email := jsPick [e1, e2, e3, e4, e5, e6, e7, e8, e9]
  let i1 ← jsGetPath payload ["contact", "id"]
  let i2 ← jsGetPath payload ["customer", "id"]
  let i3 ← jsGetPath payload ["data", "contact", "id"]
  let i4 ← jsGetPath payload ["data", "customer", "id"]
  let contactId := jsOr i1 (jsOr i2 (jsOr i3 i4))
  let s1 ← jsGetPath payload ["ticket", "subject"]
  let s2 ← jsGetPath payload ["conversation", "subject"]
  let s3 ← jsGetPath payload ["data", "conversation", "subject"]
  let s4 ← jsGetPath payload ["message", "subject"]
  let subject := jsPick [s1, s2, s3, s4]
  let h1 ← jsGetPath payload ["reply", "body_html"]
  let h2 ← jsGetPath payload ["message", "body_html"]
  let h3 ← jsGetPath payload ["data", "message", "body_html"]
  let h4 ← jsGetPath payload ["data", "reply", "body_html"]
  let h5 ← jsGetPath payload ["body_html"]
  let htmlBody := jsPick [h1, h2, h3, h4, h5]
  let t1 ← jsGetPath payload ["reply", "body_text"]
  let t2 ← jsGetPath payload ["message", "body_text"]
  let t3 ← jsGetPath payload ["data", "message", "body_text"]
  let t4 ← jsGetPath payload ["data", "reply", "body_text"]
  let t5 ← jsGetPath payload ["body_text"]
  let textBody := jsPick [t1, t2, t3, t4, t5]
  let a1 ← jsGetPath payload ["user", "name"]
  let a2 ← jsGetPath payload ["agent", "name"]
  let a3 ← jsGetPath payload ["data", "user", "name"]
  let a4 ← jsGetPath payload ["message", "agent_name"]
  let agent := jsPick [a1, a2, a3, a4]
  let n1 ← jsGetPath payload ["ticket", "number"]
  let n2 ← jsGetPath payload ["data", "conversation", "number"]
  let n3 ← jsGetPath payload ["conversation", "number"]
  let number := jsOr n1 (jsOr n2 n3)
  let ticketUrl :=
    if truthy number then
      JsVal.str ("https://app.thrivedesk.io/inbox/tickets/" ++ jsToString number)
    else .undefined
  pure ⟨email, contactId, subject, htmlBody, textBody, agent, ticketUrl⟩

/-- extractFromThriveDesk never throws: every path probe runs through the
guarded reducer. -/
theorem extractFromThriveDesk_ok (payload : JsVal) :
    ∃ v, extractFromThriveDesk payload = .ok v := by
  unfold extractFromThriveDesk
  obtain ⟨w1, hw1⟩ := jsGetPath_ok ["contact", "email"] payload
  obtain ⟨w2, hw2⟩ := jsGetPath_ok ["customer", "email"] payload
  obtain ⟨w3, hw3⟩ := jsGetPath_ok ["data", "contact", "email"] payload
  obtain ⟨w4, hw4⟩ := jsGetPath_ok ["data", "customer", "email"] payload
  obtain ⟨w5, hw5⟩ := jsGetPath_ok ["data", "conversation", "customer", "email"] payload
  obtain ⟨w6, hw6⟩ := jsGetPath_ok ["conversation", "customer", "email"] payload
  obtain ⟨w7, hw7⟩ := jsGetPath_ok ["conversation", "contact", "email"] payload
  obtain ⟨w8, hw8⟩ := jsGetPath_ok ["message", "to_email"] payload
  obtain ⟨w9, hw9⟩ := jsGetPath_ok ["message", "to"] payload
  obtain ⟨w10, hw10⟩ := jsGetPath_ok ["contact", "id"] payload
  obtain ⟨w11, hw11⟩ := jsGetPath_ok ["customer", "id"] payload
  obtain ⟨w12, hw12⟩ := jsGetPath_ok ["data", "contact", "id"] payload
  obtain ⟨w13, hw13⟩ := jsGetPath_ok ["data", "customer", "id"] payload
  obtain ⟨w14, hw14⟩ := jsGetPath_ok ["ticket", "subject"] payload
  obtain ⟨w15, hw15⟩ := jsGetPath_ok ["conversation", "subject"] payload
  obtain ⟨w16, hw16⟩ := jsGetPath_ok ["data", "conversation", "subject"] payload
  obtain ⟨w17, hw17⟩ := jsGetPath_ok ["message", "subject"] payload
  obtain ⟨w18, hw18⟩ := jsGetPath_ok ["reply", "body_html"] payload
  obtain ⟨w19, hw19⟩ := jsGetPath_ok ["message", "body_html"] payload
  obtain ⟨w20, hw20⟩ := jsGetPath_ok ["data", "message", "body_html"] payload
  obtain ⟨w21, hw21⟩ := jsGetPath_ok ["data", "reply", "body_html"] payload
  obtain ⟨w22, hw22⟩ := jsGetPath_ok ["body_html"] payload
  obtain ⟨w23, hw23⟩ := jsGetPath_ok ["reply", "body_text"] payload
  obtain ⟨w24, hw24⟩ := jsGetPath_ok ["message", "body_text"] payload
  obtain ⟨w25, hw25⟩ := jsGetPath_ok ["data", "message", "body_text"] payload
  obtain ⟨w26, hw26⟩ := jsGetPath_ok ["data", "reply", "body_text"] payload
  obtain ⟨w27, hw27⟩ := jsGetPath_ok ["body_text"] payload
  obtain ⟨w28, hw28⟩ := jsGetPath_ok ["user", "name"] payload
  obtain ⟨w29, hw29⟩ := jsGetPath_ok ["agent", "name"] payload
  obtain ⟨w30, hw30⟩ := jsGetPath_ok ["data", "user", "name"] payload
  obtain ⟨w31, hw31⟩ := jsGetPath_ok ["message", "agent_name"] payload
  obtain ⟨w32, hw32⟩ := jsGetPath_ok ["ticket", "number"] payload
  obtain ⟨w33, hw33⟩ := jsGetPath_ok ["data", "conversation", "number"] payload
  obtain ⟨w34, hw34⟩ := jsGetPath_ok ["conversation", "number"] payload
  simp only [hw1, hw2, hw3, hw4, hw5, hw6, hw7, hw8, hw9, hw10, hw11, hw12,
    hw13, hw14, hw15, hw16, hw17, hw18, hw19, hw20, hw21, hw22, hw23, hw24,
    hw25, hw26, hw27, hw28, hw29, hw30, hw31, hw32, hw33, hw34,
    bind, Except.bind]
  exact ⟨_, rfl⟩

/-- stripHtml of netlify/functions/add-contact-note.js lines 27-34: remove
style and script blocks, replace remaining tags by a space, decode &nbsp;
and &amp;, and trim. -/
def stripHtmlN (s : String) : String :=
  let l0 := s.data
  let l1 := stripBlocks l0.length l0
  let l2 := stripTags [' '] l1.length l1
  let l3 := replaceSub "&nbsp;".data " ".data l2.length l2
  let l4 := replaceSub "&amp;".data "&".data l3.length l3
  trimStr (String.mk l4)

/-- String.prototype.trim as a JS call: throws on non-strings (never reached
on the string-or-undefined values pick produces). -/
def jsTrimCall : JsVal → Except JsErr JsVal
  | .str s => .ok (.str (trimStr s))
  | .undefined => .error ⟨"TypeError"⟩
  | .null => .error ⟨"TypeError"⟩
  | _ => .error ⟨"TypeError"⟩

/-- buildNote (netlify/functions/add-contact-note.js lines 134-146):
body = (textBody && textBody.trim()) || stripHtml(htmlBody || "") ||
"(no body)", then the fixed header lines, falsy ones dropped, joined. -/
def buildNote (subject htmlBody textBody agent ticketUrl : JsVal) :
    Except JsErr String := do
  let tpart ←
    if truthy textBody then jsTrimCall textBody
    else pure textBody
  let bodyV := jsOr tpart
    (jsOr (.str (stripHtmlN (match jsOr htmlBody (.str "") with
      | .str s => s
      | v => jsToString v))) (.str "(no body)"))
  let els : List JsVal := [
    .str "Email sent from ThriveDesk",
    (if truthy agent then .str ("Agent: " ++ jsToString agent) else .null),
    (if truthy subject then .str ("Subject: " ++ jsToString subject) else .null),
    (if truthy ticketUrl then .str ("Ticket: " ++ jsToString ticketUrl) else .null),
    .str "",
    bodyV]
  pure (jsJoin "\n" (els.filter truthy))

/-- parseBody (netlify/functions/add-contact-note.js lines 148-177):
content-type dispatch between JSON, form-encoded (with optional nested JSON
under "payload") and a JSON fallback.  `parse` models JSON.parse (none =
throw), `parseForm` models URLSearchParams entry decoding. -/
def parseBodyN (parse : String → Option JsVal)
    (parseForm : String → List (String × String)) (ev : Event) :
    JsVal × String :=
  let ct := lowerStr (jsOrS (ev.headers "content-type")
    (jsOrS (ev.headers "Content-Type") ""))
  if containsSubStr ct "application/json" then
    ((parse (jsOrS ev.body "\x7b\x7d")).getD (.obj []), ct)
  else if containsSubStr ct "application/x-www-form-urlencoded" then
    let pairs := parseForm (ev.body.getD "")
    let plain := JsVal.obj (pairs.map fun kv => (kv.1, .str kv.2))
    match lookupField (pairs.map fun kv => (kv.1, JsVal.str kv.2)) "payload" with
    | some (.str pv) =>
      if pv ≠ "" then ((parse pv).getD plain, ct) else (plain, ct)
    | _ => (plain, ct)
  else
    ((parse (jsOrS ev.body "\x7b\x7d")).getD (.obj []), ct)

/-- The exact-match predicate of resolveContactId (lines 54-58 and 65-69):
`(c.EMAILADDRESS || "").toLowerCase() === email.toLowerCase()` or the same
on CUSTOMFIELD_PERSONALEMAIL (no alternate-address field here). -/
def nExact (c : ContactRec) (emailLower : String) : Bool :=
  lowerStr (c.EMAILADDRESS.getD "") = emailLower ||
  lowerStr (c.CUSTOMFIELD_PERSONALEMAIL.getD "") = emailLower

/-- One query stage of resolveContactId: status 200, non-empty array body,
first exact field match. -/
def resolveStage (emailLower : String) (r : FetchRes) : Option ContactRec :=
  if r.status = 200 then
    match r.body with
    | .arrv (c :: cs) => (c :: cs).find? fun x => nExact x emailLower
    | _ => none
  else none

/-- resolveContactId (netlify/functions/add-contact-note.js lines 47-73).
`numFn` models Number(); a missing CONTACTID on a matched record gives
Number(undefined) = NaN, modelled as none (falsy, like NaN, for the `!cid`
test that follows). -/
def resolveContactId (numFn : JsVal → Option Int) (contactId email : JsVal)
    (r1 r2 : FetchRes) : Except JsErr (Option Int) :=
  if truthy contactId then .ok (numFn contactId)
  else if truthy email = false then .ok none
  else
    match email with
    | .str s =>
      let el := lowerStr s
      match resolveStage el r1 with
      | some c => .ok c.CONTACTID
      | none =>
        match resolveStage el r2 with
        | some c => .ok c.CONTACTID
        | none => .ok none
    | _ => .error ⟨"TypeError"⟩

/-- Truthiness of the resolved numeric id (`!cid`, with none for NaN/null). -/
def cidTruthy : Option Int → Bool
  | some n => n != 0
  | none => false

/-- The handler of netlify/functions/add-contact-note.js (first file, lines
179-261): OPTIONS and method guards, env guard, shared-secret header check,
body parsing, ThriveDesk extraction merged with direct fields, contact
resolution (404 when unresolved), note build and the form-encoded note POST
(`post` is the directory's response; its ok flag selects 200 or the
error passthrough).  The handler has no try/catch: exceptions escape. -/
def handlerN (parse : String → Option JsVal)
    (parseForm : String → List (String × String)) (numFn : JsVal → Option Int)
    (cfg : Cfg) (ev : Event) (r1 r2 post : FetchRes) : Except JsErr Resp :=
  if ev.httpMethod = "OPTIONS" then .ok ⟨204, .str ""⟩
  else if ev.httpMethod ≠ "POST" then
    .ok ⟨405, .obj [("error", .str "Use POST with JSON")]⟩
  else if cfg.base = "" || cfg.apiToken = "" || cfg.wsToken = "" then
    .ok ⟨500, .obj [("error", .str "Missing env: AXC_BASE_URL, AXC_API_TOKEN, AXC_WS_TOKEN")]⟩
  else if cfg.secret ≠ "" &&
      jsOrS (ev.headers "x-webhook-secret")
        (jsOrS (ev.headers "X-Webhook-Secret")
          (jsOrS (ev.headers "x-secret-key")
            (jsOrS (ev.headers "X-Secret-Key") ""))) ≠ cfg.secret then
    .ok ⟨401, .obj [("error", .str "Bad webhook secret")]⟩
  else
    let pb := parseBodyN parse parseForm ev
    let body := pb.1
    (extractFromThriveDesk body).bind fun td =>
    (rawGet body "email").bind fun bEmail =>
    (rawGet body "contactId").bind fun bCid =>
    (rawGet body "subject").bind fun bSubject =>
    (rawGet body "htmlBody").bind fun bHtml =>
    (rawGet body "textBody").bind fun bText =>
    (rawGet body "agent").bind fun bAgent =>
    (rawGet body "ticketUrl").bind fun bTicket =>
    let email := jsPick [bEmail, td.email]
    let contactId := jsOr bCid td.contactId
    let subject := jsPick [bSubject, td.subject]
    let htmlBody := jsPick [bHtml, td.htmlBody]
    let textBody := jsPick [bText, td.textBody]
    let agent := jsPick [bAgent, td.agent]
    let ticketUrl := jsPick [bTicket, td.ticketUrl]
    (resolveContactId numFn contactId email r1 r2).bind fun cid =>
    if cidTruthy cid = false then
      .ok ⟨404, .obj [("error", .str "Could not resolve contactID"),
        ("debug", .obj [("email", email), ("contactIdProvided", contactId)])]⟩
    else
      (buildNote subject htmlBody textBody agent ticketUrl).bind fun _contactNote =>
      if post.ok then
        .ok ⟨200, .obj [("created", .bool true),
          ("contactId", .num (cid.getD 0)),
          ("usedUrl", .str (cfg.base ++ "/api/contact/note"))]⟩
      else
        .ok ⟨(if 0 < post.status then post.status.toNat else 502),
          .obj [("created", .bool false), ("contactId", .num (cid.getD 0)),
            ("usedUrl", .str (cfg.base ++ "/api/contact/note"))]⟩

/-- C5 amended (part_001 side): when the method, configuration, body,
signature, parse and email-extraction steps all pass and every
contact-resolution stage yields no contact, the part_001 handler answers
200 with the "contact not found" skip marker and the non-empty list of
attempted query URLs. -/
theorem C5_contact_not_found_response (hmac : String → String → String)
    (strfy : JsVal → String) (parse : String → Option JsVal)
    (enc : String → String) (cfg : Cfg) (ev : Event) (r1 r2 r3 put : FetchRes)
    (payload : JsVal) (em : String)
    (hm : ev.httpMethod = "POST")
    (hb : cfg.base ≠ "") (ht : cfg.apiToken ≠ "") (hw : cfg.wsToken ≠ "")
    (hbody : ev.body.getD "" ≠ "")
    (hver : verifyTdSignature hmac strfy parse cfg ev = true)
    (hp : parse (ev.body.getD "") = some payload)
    (hemail : pickCustomerEmail (jsOr (chainGet payload "data") payload) = .str em)
    (hne : em ≠ "")
    (hnc : (findContactByEmail cfg enc em r1 r2 r3).contact = none) :
    handler1 hmac strfy parse enc cfg ev r1 r2 r3 put =
      ⟨200, .obj [("ok", .bool true), ("skipped", .str "contact not found"),
        ("tried", .arr ((findContactByEmail cfg enc em r1 r2 r3).tried.map .str))]⟩
    ∧ (findContactByEmail cfg enc em r1 r2 r3).tried ≠ [] := by
  refine ⟨?_, findContactByEmail_tried_ne_nil cfg enc em r1 r2 r3⟩
  obtain ⟨s, hs⟩ :=
    composeNoteFull_ok (jsOr (chainGet payload "data") payload) (.str em)
  have hcn : composeNote (jsOr (chainGet payload "data") payload) (.str em)
      = .ok (sliceMax 60000 s) := by
    unfold composeNote
    rw [hs]
    rfl
  unfold handler1 handler1body
  rw [if_neg (by simp [hm]), if_neg (by simp [hb, ht, hw]), if_neg hbody,
    if_neg (by simp [hver]), hp]
  simp only [hemail, hcn, hnc, bind, Except.bind, asStrE, contactIdTruthy,
    truthy, bne_iff_ne, ne_eq, hne, not_false_eq_true, Bool.true_eq_false,
    if_false, if_true]
  simp [hne]

/-- A stand-in JSON.parse agreeing with the builtin on the one part_001
witness body used below. -/
def parseP : String → Option JsVal := fun s =>
  if s = "B" then
    some (.obj [("data", .obj [("contactInfo", .obj [("email", .str "w@x.com")])])])
  else none

/-- A part_001 configuration with no webhook secret. -/
def cfgNS : Cfg := ⟨"https://axc", "tokA", "tokW", "", false⟩

/-- The part_001 witness event. -/
def evP : Event := ⟨"POST", fun _ => none, some "B"⟩

/-- Witness for the amended C5: at a concrete request whose directory
returns no candidates at any stage, the part_001 handler answers the 200
skip response and the tried-URL list is non-empty. -/
theorem C5_contact_not_found_response_witness :
    handler1 hmacStub strfyStub parseP idEnc cfgNS evP rDead rDead rDead rDead =
      ⟨200, .obj [("ok", .bool true), ("skipped", .str "contact not found"),
        ("tried", .arr ((findContactByEmail cfgNS idEnc "w@x.com"
          rDead rDead rDead).tried.map .str))]⟩
    ∧ (findContactByEmail cfgNS idEnc "w@x.com" rDead rDead rDead).tried ≠ [] :=
  C5_contact_not_found_response hmacStub strfyStub parseP idEnc cfgNS evP
    rDead rDead rDead rDead
    (.obj [("data", .obj [("contactInfo", .obj [("email", .str "w@x.com")])])])
    "w@x.com" rfl (by decide) (by decide) (by decide) (by decide) rfl rfl rfl
    (by decide) rfl

/-- A stand-in JSON.parse agreeing with the builtin on the one netlify
counterexample body used below. -/
def parseN : String → Option JsVal := fun s =>
  if s = "\x7b\"customer\":\x7b\"email\":\"a@x.com\"\x7d\x7d" then
    some (.obj [("customer", .obj [("email", .str "a@x.com")])])
  else none

/-- A stand-in URLSearchParams decoder (the form branch is not taken). -/
def formNone : String → List (String × String) := fun _ => []

/-- A stand-in Number() (never applied on the counterexample path). -/
def numNone : JsVal → Option Int := fun _ => none

/-- Netlify configuration with a shared secret set. -/
def cfgN : Cfg := ⟨"https://axc", "tokA", "tokW", "sek", false⟩

/-- The netlify counterexample request: correct secret header, JSON body
with a customer email. -/
def evN : Event := ⟨"POST",
  fun n =>
    if n = "x-webhook-secret" then some "sek"
    else if n = "content-type" then some "application/json" else none,
  some "\x7b\"customer\":\x7b\"email\":\"a@x.com\"\x7d\x7d"⟩

/-- A directory stage response with zero candidates. -/
def rEmpty : FetchRes := ⟨true, 200, .arrv []⟩

/-- Counterexample to C5 as stated: on the handler of
netlify/functions/add-contact-note.js, a request that passes the secret
check, parses, and yields a customer email, but matches no directory
candidate at any stage, is answered 404 with an error body — not 200 with a
skip marker — and no tried-URL list is included. -/
theorem C5_counterexample :
    handlerN parseN formNone numNone cfgN evN rEmpty rEmpty rEmpty =
      .ok ⟨404, .obj [("error", .str "Could not resolve contactID"),
        ("debug", .obj [("email", .str "a@x.com"),
          ("contactIdProvided", .undefined)])]⟩ := by
  rfl

/-- C7: the extraction functions are total — lastOutboundEmailThread and
extractFromThriveDesk never throw for any JS value (their plain property
reads are guarded), and on the empty object the absent fields come back as
null/undefined rather than as errors.  pickCustomerEmail and htmlToText are
embedded as total functions because their sources use only optional
chaining, String() and regex replaces, none of which can throw. -/
theorem C7_extraction_total :
    (∀ v, ∃ t, lastOutboundEmailThread v = .ok t)
  ∧ (∀ v, ∃ r, extractFromThriveDesk v = .ok r)
  ∧ pickCustomerEmail (.obj []) = .null
  ∧ lastOutboundEmailThread (.obj []) = .ok .null
  ∧ (extractFromThriveDesk (.obj [])).map (fun r => r.email) = .ok .undefined
  ∧ htmlToText .undefined = "" :=
  ⟨lastOutboundEmailThread_ok, extractFromThriveDesk_ok, rfl, rfl, rfl, rfl⟩

/-- toLower of src/unnamed/part_002 line 126:
`(s || "").toString().trim().toLowerCase()`; total on every value. -/
def toLowerJS (v : JsVal) : String :=
  lowerStr (trimStr (jsToString (jsOr v (.str ""))))

/-- The page offsets visited by pagedExact's while loop
(`offset <= 900`, step 100). -/
def pagedOffsets : List Nat := [0, 100, 200, 300, 400, 500, 600, 700, 800, 900]

/-- pagedExact (src/unnamed/part_002 lines 147-160): page through a search
endpoint, 100 records a page, stopping on a failed or non-array or empty
response, on an exact match, or on a short page.  `oracle` maps each request
URL to the directory's response. -/
def pagedExact (oracle : String → FetchRes) (cfgbase : String) (lower : String)
    (base : String) : List Nat → List String → Option ContactRec × List String
  | [], tried => (none, tried)
  | off :: rest, tried =>
    let url := cfgbase ++ base ++ (if containsSubStr base "?" then "&" else "?")
      ++ "displayLength=100&offset=" ++ toString off
    let res := oracle url
    let tried2 := tried ++ [url]
    if res.ok = false then (none, tried2)
    else
      match res.body with
      | .arrv (c :: cs) =>
        (match (c :: cs).find? (fun x => isExactEmail x lower) with
         | some x => (some x, tried2)
         | none =>
           if (c :: cs).length < 100 then (none, tried2)
           else pagedExact oracle cfgbase lower base rest tried2)
      | _ => (none, tried2)

/-- The displayLength=1 fallback loop of src/unnamed/part_002 lines 171-182:
accept a single-record response as the contact. -/
def singleFallback (oracle : String → FetchRes) :
    List String → List String → Option ContactRec × List String
  | [], tried => (none, tried)
  | u :: rest, tried =>
    let res := oracle u
    let tried2 := tried ++ [u]
    if res.ok then
      match res.body with
      | .arrv [c] => (some c, tried2)
      | _ => singleFallback oracle rest tried2
    else singleFallback oracle rest tried2

/-- findContactByEmail of src/unnamed/part_002 (lines 134-185): the direct
endpoint, three paged searches, then the three single-result fallbacks. -/
def findContactByEmail2 (cfg : Cfg) (enc : String → String)
    (oracle : String → FetchRes) (email : JsVal) : FindResult :=
  let e := enc (jsToString email)
  let lower := toLowerJS email
  let u1 := cfg.base ++ "/api/contacts?emailAddress=" ++ e
  let r := oracle u1
  let s1 : Option ContactRec :=
    if r.ok then (arrOfBody r.body).find? (fun c => isExactEmail c lower)
    else none
  match s1 with
  | some c => ⟨some c, [u1]⟩
  | none =>
    match pagedExact oracle cfg.base lower ("/api/contacts/search?emailAddress=" ++ e)
        pagedOffsets [u1] with
    | (some c, t2) => ⟨some c, t2⟩
    | (none, t2) =>
      match pagedExact oracle cfg.base lower ("/api/contacts/search?q=" ++ e)
          pagedOffsets t2 with
      | (some c, t3) => ⟨some c, t3⟩
      | (none, t3) =>
        match pagedExact oracle cfg.base lower ("/api/contacts/search?search=" ++ e)
            pagedOffsets t3 with
        | (some c, t4) => ⟨some c, t4⟩
        | (none, t4) =>
          match singleFallback oracle
              [cfg.base ++ "/api/contacts/search?emailAddress=" ++ e ++ "&displayLength=1",
               cfg.base ++ "/api/contacts/search?q=" ++ e ++ "&displayLength=1",
               cfg.base ++ "/api/contacts/search?search=" ++ e ++ "&displayLength=1"]
              t4 with
          | (some c, t5) => ⟨some c, t5⟩
          | (none, t5) => ⟨none, t5⟩

/-- The agent-name computation of src/unnamed/part_002 lines 258-260:
`[assignee.firstName, assignee.lastName].filter(Boolean).join(" ").trim()`
under the `assignee ?` guard. -/
def agentNameE (assignee : JsVal) : Except JsErr String :=
  if truthy assignee then
    (rawGet assignee "firstName").bind fun fn =>
    (rawGet assignee "lastName").map fun ln =>
    trimStr (jsJoin " " ([fn, ln].filter truthy))
  else .ok ""

/-- agentNameE never throws: the plain reads sit under the truthiness guard. -/
theorem agentNameE_ok (assignee : JsVal) : ∃ s, agentNameE assignee = .ok s := by
  unfold agentNameE
  by_cases ht : truthy assignee = true
  · rw [if_pos ht, rawGet_ok_of_truthy _ _ ht]
    simp only [bind, Except.bind, rawGet_ok_of_truthy _ _ ht]
    exact ⟨_, rfl⟩
  · rw [if_neg ht]
    exact ⟨_, rfl⟩

/-- The cc/bcc selection of src/unnamed/part_002 lines 267-274: the first of
`outbound?.key`, `data?.key`, `data?.message?.key` that is an array, else
empty; each plain read is guarded by the Array.isArray test. -/
def ccListE (outbound data : JsVal) (key : String) :
    Except JsErr (List JsVal) :=
  if isArrayB (chainGet outbound key) then
    (rawGet outbound key).map arrElems
  else if isArrayB (chainGet data key) then
    (rawGet data key).map arrElems
  else if isArrayB (chainGet (chainGet data "message") key) then
    (rawGet data "message").bind fun m => (rawGet m key).map arrElems
  else .ok []

/-- A chained read through two keys is safe when the chained value is an
array. -/
theorem rawGet_chain2_array (data : JsVal) (k1 k2 : String)
    (h : isArrayB (chainGet (chainGet data k1) k2) = true) :
    (rawGet data k1).bind (fun m => (rawGet m k2).map arrElems)
      = .ok (arrElems (chainGet (chainGet data k1) k2)) := by
  have h1 : chainGet data k1 ≠ .undefined ∧ chainGet data k1 ≠ .null := by
    constructor <;> (intro he; rw [he] at h; simp [chainGet, isArrayB] at h)
  have h0 : rawGet data k1 = .ok (chainGet data k1) := by
    cases data <;> simp_all [chainGet, rawGet, isArrayB]
  rw [h0]
  simp only [bind, Except.bind]
  have h2 : rawGet (chainGet data k1) k2 = .ok (chainGet (chainGet data k1) k2) := by
    cases hc : chainGet data k1 <;> simp_all [chainGet, rawGet]
  rw [h2]
  rfl

/-- ccListE never throws. -/
theorem ccListE_ok (outbound data : JsVal) (key : String) :
    ∃ l, ccListE outbound data key = .ok l := by
  unfold ccListE
  by_cases h1 : isArrayB (chainGet outbound key) = true
  · rw [if_pos h1, rawGet_of_chain_array _ _ h1]
    exact ⟨_, rfl⟩
  · rw [if_neg h1]
    by_cases h2 : isArrayB (chainGet data key) = true
    · rw [if_pos h2, rawGet_of_chain_array _ _ h2]
      exact ⟨_, rfl⟩
    · rw [if_neg h2]
      by_cases h3 : isArrayB (chainGet (chainGet data "message") key) = true
      · rw [if_pos h3, rawGet_chain2_array _ _ _ h3]
        exact ⟨_, rfl⟩
      · rw [if_neg h3]
        exact ⟨_, rfl⟩

/-- A two-step JS `||` ending in an object literal is always truthy. -/
theorem jsOr_obj_truthy (a b : JsVal) (fs : List (String × JsVal)) :
    truthy (jsOr a (jsOr b (.obj fs))) = true := by
  unfold jsOr
  split
  · assumption
  · split
    · assumption
    · rfl

/-- The body of the part_002 handler (src/unnamed/part_002 lines 198-318),
inside its try block.  Identical to part_001 up to email extraction; the
note composition then differs: conversation-id header line, CC/BCC lines,
and a From line — whose `if (connectedAddr)` reads an undeclared variable
and therefore throws ReferenceError whenever it is reached.  The code after
that read (From/body lines, slice, findContactByEmail2, the note POST and
the 200/502 responses) is embedded but unreachable. -/
def handler2body (hmac : String → String → String) (strfy : JsVal → String)
    (parse : String → Option JsVal) (enc : String → String)
    (cfg : Cfg) (ev : Event) (oracle : String → FetchRes) : Except JsErr Resp :=
  if ev.httpMethod ≠ "POST" then
    .ok ⟨405, .obj [("error", .str "Use POST with JSON")]⟩
  else if cfg.base = "" || cfg.apiToken = "" || cfg.wsToken = "" then
    .ok ⟨500, .obj [("error", .str "Missing aXcelerate env vars")]⟩
  else if ev.body.getD "" = "" then
    .ok ⟨400, .obj [("error", .str "Missing body")]⟩
  else if verifyTdSignature hmac strfy parse cfg ev = false
      && cfg.allowUnverified = false then
    .ok ⟨401, .obj [("error", .str "Signature check failed")]⟩
  else
    match parse (ev.body.getD "") with
    | none => .ok ⟨400, .obj [("error", .str "Body must be JSON")]⟩
    | some payload =>
      let data := jsOr (chainGet payload "data") payload
      let customerEmail := pickCustomerEmail data
      if truthy customerEmail = false then
        .ok ⟨200, .obj [("ok", .bool true), ("skipped", .str "no customer email")]⟩
      else
        (lastOutboundEmailThread data).bind fun outbound =>
        let subject := jsOr (chainGet outbound "subject")
          (jsOr (chainGet data "subject")
            (jsOr (chainGet (chainGet data "conversation") "subject")
              (.str "(no subject)")))
        let plain := jsOr (chainGet outbound "textBody")
          (.str (htmlToText (jsOr (chainGet outbound "htmlBody")
            (jsOr (chainGet (chainGet data "message") "htmlBody")
              (jsOr (chainGet (chainGet data "message") "body") (.str ""))))))
        let assignee := jsOr (chainGet data "assignedTo")
          (jsOr (chainGet (chainGet data "conversation") "assignedTo") .null)
        (agentNameE assignee).bind fun agentName =>
        let inbox := jsOr (chainGet data "inbox")
          (jsOr (chainGet (chainGet data "conversation") "inbox") (.obj []))
        (rawGet inbox "name").bind fun inm =>
        (rawGet inbox "connectedEmailAddress").bind fun inca =>
        let inboxName := jsOr inm (jsOr inca (.str "Support"))
        (ccListE outbound data "cc").bind fun ccList =>
        (ccListE outbound data "bcc").bind fun bccList =>
        let convId := jsOr (chainGet (chainGet data "conversation") "id")
          (jsOr (chainGet data "ticketId") (chainGet data "id"))
        let lines1 : List JsVal :=
          [.str ("Email sent via ThriveDesk - Conversation ID: "
              ++ jsToString (jsNullish convId (.str "(unknown)"))),
           .str ("To: " ++ jsToString customerEmail)]
        let lines2 := lines1 ++
          (if ccList.length ≠ 0 then [.str ("CC: " ++ jsJoin ", " ccList)] else [])
        let lines3 := lines2 ++
          (if bccList.length ≠ 0 then [.str ("BCC: " ++ jsJoin ", " bccList)] else [])
        let lines4 := lines3 ++ [.str ("Subject: " ++ jsToString subject)]
        (Except.error ⟨"connectedAddr is not defined"⟩
            : Except JsErr JsVal).bind fun connectedAddr =>
        let _fromBits : List JsVal :=
          (if truthy connectedAddr then [connectedAddr] else [])
            ++ (if agentName ≠ "" then [.str agentName] else [])
        let lines5 := lines4 ++ [.str ("From: " ++ jsToString inboxName
          ++ (if agentName ≠ "" then " - " ++ agentName else ""))]
        let lines6 := lines5 ++ [.str "", jsOr plain (.str "(no body)")]
        let note := sliceMax 60000 (jsJoin "\n" lines6)
        let fr := findContactByEmail2 cfg enc oracle customerEmail
        if contactIdTruthy fr.contact = false then
          .ok ⟨200, .obj [("ok", .bool true), ("skipped", .str "contact not found"),
            ("tried", .arr (fr.tried.map .str))]⟩
        else
          let put := oracle (cfg.base ++ "/api/contact/note/")
          if put.ok = false then
            .ok ⟨502, .obj [("error", .str "aXcelerate note create failed"),
              ("status", .num put.status)]⟩
          else
            .ok ⟨200, .obj [("ok", .bool true),
              ("contactID", .num (contactIdOf fr.contact)),
              ("email", customerEmail),
              ("noteLength", .num (note.length : Int))]⟩

/-- The part_002 handler with its catch clause. -/
def handler2 (hmac : String → String → String) (strfy : JsVal → String)
    (parse : String → Option JsVal) (enc : String → String)
    (cfg : Cfg) (ev : Event) (oracle : String → FetchRes) : Resp :=
  match handler2body hmac strfy parse enc cfg ev oracle with
  | .ok r => r
  | .error e => ⟨500, .obj [("error", .str e.message)]⟩

/-- C10: every POST to the part_002 handler that passes the configuration,
body, signature and parse guards and yields a truthy customer email is
answered 500: composition reaches the undeclared `connectedAddr` read, the
ReferenceError propagates to the catch clause, and the 200-success,
200-skip and 502 branches after composition can never run. -/
theorem C10_handler2_referenceerror (hmac : String → String → String)
    (strfy : JsVal → String) (parse : String → Option JsVal)
    (enc : String → String) (cfg : Cfg) (ev : Event)
    (oracle : String → FetchRes) (payload : JsVal)
    (hm : ev.httpMethod = "POST")
    (hb : cfg.base ≠ "") (ht : cfg.apiToken ≠ "") (hw : cfg.wsToken ≠ "")
    (hbody : ev.body.getD "" ≠ "")
    (hver : verifyTdSignature hmac strfy parse cfg ev = true)
    (hp : parse (ev.body.getD "") = some payload)
    (he : truthy (pickCustomerEmail (jsOr (chainGet payload "data") payload)) = true) :
    handler2 hmac strfy parse enc cfg ev oracle =
      ⟨500, .obj [("error", .str "connectedAddr is not defined")]⟩ := by
  unfold handler2 handler2body
  rw [if_neg (by simp [hm]), if_neg (by simp [hb, ht, hw]), if_neg hbody,
    if_neg (by simp [hver]), hp]
  obtain ⟨ob, hob⟩ :=
    lastOutboundEmailThread_ok (jsOr (chainGet payload "data") payload)
  obtain ⟨an, han⟩ := agentNameE_ok
    (jsOr (chainGet (jsOr (chainGet payload "data") payload) "assignedTo")
      (jsOr (chainGet (chainGet (jsOr (chainGet payload "data") payload)
        "conversation") "assignedTo") .null))
  have hinb := jsOr_obj_truthy
    (chainGet (jsOr (chainGet payload "data") payload) "inbox")
    (chainGet (chainGet (jsOr (chainGet payload "data") payload)
      "conversation") "inbox") []
  obtain ⟨cc, hcc⟩ := ccListE_ok ob (jsOr (chainGet payload "data") payload) "cc"
  obtain ⟨bcc, hbcc⟩ := ccListE_ok ob (jsOr (chainGet payload "data") payload) "bcc"
  simp only [he, hob, han, hcc, hbcc, bind, Except.bind, Bool.true_eq_false,
    if_false, rawGet_ok_of_truthy _ "name" hinb,
    rawGet_ok_of_truthy _ "connectedEmailAddress" hinb]

/-- A stand-in JSON.parse agreeing with the builtin on the part_002 witness
body. -/
def parseP2 : String → Option JsVal := fun s =>
  if s = "B2" then
    some (.obj [("contactInfo", .obj [("email", .str "w@x.com")])])
  else none

/-- The part_002 witness event. -/
def evP2 : Event := ⟨"POST", fun _ => none, some "B2"⟩

/-- A directory oracle whose every response fails (never reached). -/
def oracleDead : String → FetchRes := fun _ => rDead

/-- Witness for C10: a concrete verified POST with a customer email is
answered 500 with the ReferenceError message. -/
theorem C10_handler2_referenceerror_witness :
    handler2 hmacStub strfyStub parseP2 idEnc cfgNS evP2 oracleDead =
      ⟨500, .obj [("error", .str "connectedAddr is not defined")]⟩ :=
  C10_handler2_referenceerror hmacStub strfyStub parseP2 idEnc cfgNS evP2
    oracleDead (.obj [("contactInfo", .obj [("email", .str "w@x.com")])])
    rfl (by decide) (by decide) (by decide) (by decide) rfl rfl rfl

end VnsAxc
